import Mathlib

/-
Verification of the noisysockets/cli shell gateway (`cmd/shell/serve.go`)
against its natural-language specification.

The development shallowly embeds the `Serve` function of `cmd/shell/serve.go`:
straight-line startup code becomes a function over an explicit environment of
collaborator outcomes, the per-connection websocket handler becomes a trace
function implementing Go's defer/panic discipline, and the middleware chain
becomes a transformer pipeline over an explicit header list.

Collaborators that live outside the visible source (the repository's
`internal/middleware` package, `rs/cors`, `gorilla/websocket`,
`noisysockets/shell`) are modelled at their interface boundary; such
definitions carry a `Modelled from the spec:` doc comment.  Go standard
library formatting (`net/netip`) is modelled after its documented behavior.
-/

set_option autoImplicit false

namespace Nsh

/-- String concatenation is associative (helper for flattening origin strings). -/
theorem strAppendAssoc (a b c : String) : (a ++ b) ++ c = a ++ (b ++ c) := by
  cases a
  cases b
  cases c
  exact congrArg String.mk (List.append_assoc _ _ _)

/-- A bound IP address as produced by `net/netip`.  `text` is the result of
Go's `netip.Addr.String()`: the dotted-quad form for IPv4 and the
RFC-5952 canonical form for IPv6, which is UNBRACKETED.  `isV6` records
whether the address is an IPv6 address. -/
structure NetAddr where
  text : String
  isV6 : Bool
deriving DecidableEq, Repr

/-- An address-port pair, as produced by `netip.MustParseAddrPort` on the
listener address (`serve.go` line 52). -/
structure AddrPort where
  addr : NetAddr
  port : Nat
deriving DecidableEq, Repr

/-- Go's `netip.Addr.String()` (used by `fmt.Sprintf("http://%s", lisAddrPort.Addr())`). -/
def NetAddr.string (a : NetAddr) : String := a.text

/-- Go's `netip.AddrPort.String()`: `addr:port`, with the address wrapped in
square brackets when it is IPv6 (documented `net/netip` behavior). -/
def AddrPort.string (ap : AddrPort) : String :=
  if ap.addr.isV6 then "[" ++ ap.addr.text ++ "]:" ++ toString ap.port
  else ap.addr.text ++ ":" ++ toString ap.port

/-- The allowed-origin list computed at startup, translated from
`serve.go` lines 53-68: the bare bound address and the bound address with
port, plus, when the hostname is non-empty, the bare hostname and the
hostname with the listener's port.  All entries use scheme `http`. -/
def allowedOrigins (ap : AddrPort) (hostname : String) : List String :=
  let base := ["http://" ++ ap.addr.string, "http://" ++ ap.string]
  if hostname ≠ "" then
    base ++ ["http://" ++ hostname, "http://" ++ hostname ++ ":" ++ toString ap.port]
  else
    base

/-- C1: For every bound address A and hostname H, the allowed-origin set
contains exactly the bare form of A and the port-qualified form of A (with
scheme http), plus, when H is non-empty, the bare form of H and H with A's
port; when H is empty, only A's two forms are present. -/
theorem allowedOrigins_exact (ap : AddrPort) (hostname : String) (s : String) :
    s ∈ allowedOrigins ap hostname ↔
      (s = "http://" ++ ap.addr.string ∨ s = "http://" ++ ap.string ∨
        (hostname ≠ "" ∧
          (s = "http://" ++ hostname ∨
           s = "http://" ++ hostname ++ ":" ++ toString ap.port))) := by
  unfold allowedOrigins
  by_cases h : hostname = "" <;> simp [h]

/-- C10: For an IPv6-bound listener the first allowed origin is `http://`
followed by the unbracketed IPv6 address while the second uses the
bracketed `[addr]:port` form, so the two entries spell the same host
inconsistently. -/
theorem allowedOrigins_ipv6_spellings (ap : AddrPort) (hostname : String)
    (h6 : ap.addr.isV6 = true) :
    (allowedOrigins ap hostname).head? = some ("http://" ++ ap.addr.text) ∧
    (allowedOrigins ap hostname)[1]? =
      some ("http://[" ++ ap.addr.text ++ "]:" ++ toString ap.port) := by
  unfold allowedOrigins AddrPort.string NetAddr.string
  by_cases h : hostname = "" <;>
    simp [h, h6, ← strAppendAssoc]

/-- Witness for C10 at the concrete IPv6 endpoint `[fd00::1]:80` with an
empty hostname. -/
theorem allowedOrigins_ipv6_spellings_witness :
    (⟨⟨"fd00::1", true⟩, 80⟩ : AddrPort).addr.isV6 = true ∧
    ((allowedOrigins ⟨⟨"fd00::1", true⟩, 80⟩ "").head? = some "http://fd00::1" ∧
      (allowedOrigins ⟨⟨"fd00::1", true⟩, 80⟩ "")[1]? = some "http://[fd00::1]:80") :=
  ⟨rfl, allowedOrigins_ipv6_spellings ⟨⟨"fd00::1", true⟩, 80⟩ "" rfl⟩

/-- The CORS handler value built by `cors.New(cors.Options{AllowedOrigins:
allowedOrigins})` (`serve.go` lines 70-72).  Only the stored allowed-origin
list is relevant to this development. -/
structure CorsHandler where
  allowed : List String
deriving DecidableEq, Repr

/-- Modelled from the spec: `rs/cors`'s `Cors.OriginAllowed`, the origin
check installed as the websocket upgrader's `CheckOrigin` and consulted by
the CORS middleware.  Per the spec it is a pure membership test of the
request's Origin header against OriginSet, rejecting only when the header
is present and not a member; an absent Origin header passes
unconditionally.  (The `rs/cors` source is not part of this repository's
visible tree.) -/
def CorsHandler.originCheck (c : CorsHandler) (origin : Option String) : Bool :=
  match origin with
  | none => true
  | some o => c.allowed.contains o

/-- `cors.New` applied to the startup options (`serve.go` lines 70-72). -/
def corsNew (origins : List String) : CorsHandler := ⟨origins⟩

/-- The single CORS handler value `Serve` builds from the startup
allowed-origin list and then shares between the upgrader and the
middleware chain. -/
def serveCorsHandler (ap : AddrPort) (hostname : String) : CorsHandler :=
  corsNew (allowedOrigins ap hostname)

/-- The origin check wired into the websocket upgrader:
`websocket.Upgrader{CheckOrigin: corsHandler.OriginAllowed}`
(`serve.go` lines 74-76). -/
def upgraderCheckOrigin (ap : AddrPort) (hostname : String) :
    Option String → Bool :=
  (serveCorsHandler ap hostname).originCheck

/-- The origin predicate the CORS middleware (`corsHandler.Handler`,
`serve.go` line 114) evaluates on each request: the same handler value's
origin check. -/
def corsMiddlewareOriginCheck (ap : AddrPort) (hostname : String) :
    Option String → Bool :=
  (serveCorsHandler ap hostname).originCheck

/-- The spec's description of the origin policy, written from the spec's
words for comparison: `IsAllowed(origin)` is a pure membership test against
OriginSet, and an absent Origin header is not penalized. -/
def specIsAllowed (originSet : List String) (origin : Option String) : Bool :=
  match origin with
  | none => true
  | some o => originSet.contains o

/-- Observable events of the `/shell/ws` connection handler
(`serve.go` lines 83-106). -/
inductive Ev where
  | logHandling
  | logUpgradeError
  | logCreateError
  | sessionCreated
  | logWaitError
  | logFinished
  | sessionClosed
deriving DecidableEq, Repr

/-- Outcome of `h.Wait()` inside the connection handler: normal completion,
an error return, or a panic escaping `Wait` into the handler. -/
inductive WaitOutcome where
  | ok
  | error
  | panics
deriving DecidableEq, Repr

/-- Environment of one `/shell/ws` request: the request's Origin header,
whether the non-origin parts of the websocket handshake succeed, the
result of `shell.NewHandler`, and the outcome of `h.Wait()`. -/
structure ConnEnv where
  origin : Option String
  handshakeOk : Bool
  newHandlerOk : Bool
  waitOutcome : WaitOutcome
deriving DecidableEq, Repr

/-- The `/shell/ws` handler of `serve.go` lines 83-106 as a trace function:
the event list it produces and whether a panic escapes it.  `Upgrade` fails
when the handshake is malformed or when `CheckOrigin` (the CORS handler's
origin check) returns false, in which case the handler logs and returns
without creating a session (gorilla/websocket's documented `CheckOrigin`
contract).  After `shell.NewHandler` succeeds, `defer h.Close()` releases
the session's stream and process handles on every exit path — normal
return, error return, and panic unwinding — per Go's defer semantics.
When `NewHandler` fails no session exists and, modelled from the spec, no
resources are retained. -/
def wsHandler (c : CorsHandler) (env : ConnEnv) : List Ev × Bool :=
  if env.handshakeOk && c.originCheck env.origin then
    if env.newHandlerOk then
      match env.waitOutcome with
      | .ok => ([.logHandling, .sessionCreated, .logFinished, .sessionClosed], false)
      | .error => ([.logHandling, .sessionCreated, .logWaitError, .sessionClosed], false)
      | .panics => ([.logHandling, .sessionCreated, .sessionClosed], true)
    else
      ([.logHandling, .logCreateError], false)
  else
    ([.logHandling, .logUpgradeError], false)

/-- C2: For any upgrade request on `/shell/ws` whose Origin header is
present and not a member of the allowed-origin set, the upgrade handshake
fails and no session is created; the failure is logged and the handler
returns normally (the server keeps serving). -/
theorem rejectedOrigin_no_session (ap : AddrPort) (hostname : String)
    (env : ConnEnv) (o : String) (ho : env.origin = some o)
    (hm : (allowedOrigins ap hostname).contains o = false) :
    Ev.sessionCreated ∉ (wsHandler (serveCorsHandler ap hostname) env).1 ∧
    Ev.logUpgradeError ∈ (wsHandler (serveCorsHandler ap hostname) env).1 ∧
    (wsHandler (serveCorsHandler ap hostname) env).2 = false := by
  unfold wsHandler
  have hc : (serveCorsHandler ap hostname).originCheck env.origin = false := by
    rw [ho]
    unfold CorsHandler.originCheck serveCorsHandler corsNew
    exact hm
  rw [hc]
  simp

/-- Witness for C2: a concrete IPv4 endpoint, hostname `gateway`, and a
request from the disallowed origin `http://evil.example`. -/
theorem rejectedOrigin_no_session_witness :
    ((⟨some "http://evil.example", true, true, .ok⟩ : ConnEnv).origin =
        some "http://evil.example" ∧
      (allowedOrigins ⟨⟨"100.64.0.1", false⟩, 80⟩ "gateway").contains
        "http://evil.example" = false) ∧
    (Ev.sessionCreated ∉
        (wsHandler (serveCorsHandler ⟨⟨"100.64.0.1", false⟩, 80⟩ "gateway")
          ⟨some "http://evil.example", true, true, .ok⟩).1 ∧
      Ev.logUpgradeError ∈
        (wsHandler (serveCorsHandler ⟨⟨"100.64.0.1", false⟩, 80⟩ "gateway")
          ⟨some "http://evil.example", true, true, .ok⟩).1 ∧
      (wsHandler (serveCorsHandler ⟨⟨"100.64.0.1", false⟩, 80⟩ "gateway")
        ⟨some "http://evil.example", true, true, .ok⟩).2 = false) :=
  ⟨⟨rfl, by decide⟩,
    rejectedOrigin_no_session ⟨⟨"100.64.0.1", false⟩, 80⟩ "gateway"
      ⟨some "http://evil.example", true, true, .ok⟩ "http://evil.example" rfl
      (by decide)⟩

/-- C3: For any request whose Origin header is absent, the origin check
used by the session upgrader passes unconditionally, and (when the rest of
the handshake is well-formed) the upgrade is not rejected. -/
theorem absentOrigin_passes (c : CorsHandler) (env : ConnEnv)
    (ho : env.origin = none) :
    c.originCheck env.origin = true ∧
    (env.handshakeOk = true →
      Ev.logUpgradeError ∉ (wsHandler c env).1) := by
  have hc : c.originCheck env.origin = true := by rw [ho]; rfl
  refine ⟨hc, fun hh => ?_⟩
  unfold wsHandler
  rw [hc, hh]
  rcases hn : env.newHandlerOk <;> rcases hw : env.waitOutcome <;> simp

/-- Witness for C3: any handler value and a well-formed request with no
Origin header. -/
theorem absentOrigin_passes_witness :
    ((⟨none, true, true, .ok⟩ : ConnEnv).origin = none) ∧
    ((corsNew ["http://100.64.0.1"]).originCheck
        (⟨none, true, true, .ok⟩ : ConnEnv).origin = true ∧
      ((⟨none, true, true, .ok⟩ : ConnEnv).handshakeOk = true →
        Ev.logUpgradeError ∉
          (wsHandler (corsNew ["http://100.64.0.1"])
            ⟨none, true, true, .ok⟩).1)) :=
  ⟨rfl, absentOrigin_passes (corsNew ["http://100.64.0.1"])
    ⟨none, true, true, .ok⟩ rfl⟩

/-- C4: On every exit path of the connection handler — creation failure,
`Wait` error, normal completion, and a panic propagated from inner logic —
the session opened by a successful upgrade is closed exactly once (one
`sessionClosed` event when a session was created, none otherwise; in
particular never two). -/
theorem session_closed_exactly_once (c : CorsHandler) (env : ConnEnv) :
    (wsHandler c env).1.count Ev.sessionClosed =
      (if Ev.sessionCreated ∈ (wsHandler c env).1 then 1 else 0) := by
  unfold wsHandler
  rcases hg : env.handshakeOk && c.originCheck env.origin <;>
    rcases hn : env.newHandlerOk <;>
      rcases hw : env.waitOutcome <;> simp

/-- C8: The origin predicate used by the CORS middleware and the origin
check used by the websocket upgrader are the same function over the same
allowed-origin set: both equal the spec's `IsAllowed` membership test over
`allowedOrigins`. -/
theorem single_origin_predicate (ap : AddrPort) (hostname : String)
    (origin : Option String) :
    upgraderCheckOrigin ap hostname origin =
      specIsAllowed (allowedOrigins ap hostname) origin ∧
    corsMiddlewareOriginCheck ap hostname origin =
      specIsAllowed (allowedOrigins ap hostname) origin := by
  constructor <;> cases origin <;> rfl

/-- An error returned by the Go HTTP serve loop: either the well-known
`http.ErrServerClosed` sentinel (returned after `srv.Close()`), or any
other error. -/
inductive GoErr where
  | errServerClosed
  | other (msg : String)
deriving DecidableEq, Repr

/-- Environment of one run of `Serve`: the outcomes of its collaborators,
in the order the code consults them: `noisysockets.OpenNetwork`,
`net.Listen` (yielding the bound address), `net.Hostname`, and the result
of `srv.Serve(lis)` (`none` models a nil error). -/
structure ServeEnv where
  openNetworkResult : Except String Unit
  listenResult : Except String AddrPort
  hostnameResult : Except String String
  serveResult : Option GoErr
deriving Repr

/-- The value `Serve` returns to its caller: nil or an error message. -/
inductive ServeOutcome where
  | success
  | failure (msg : String)
deriving DecidableEq, Repr

/-- Observations of a `Serve` run: the allowed-origin list in force when
serving began (if it did), and whether control reached the
`srv.Serve(lis)` call. -/
structure ServeTrace where
  servedOrigins : Option (List String)
  reachedServe : Bool
deriving DecidableEq, Repr

/-- The `Serve` function of `serve.go` (lines 34-145) as a straight-line
translation over its collaborator outcomes.  Failures of `OpenNetwork`,
`Listen` and `Hostname` each return a wrapped error immediately — in
particular a `Hostname` error aborts before any serving (line 61).  An
empty hostname is tolerated: the origin list then holds only the two
address-derived entries (lines 64-68).  The final serve loop treats the
`http.ErrServerClosed` sentinel as success and wraps any other error
(lines 140-144). -/
def Serve (env : ServeEnv) : ServeOutcome × ServeTrace :=
  match env.openNetworkResult with
  | .error e =>
      (.failure ("failed to open WireGuard network: " ++ e), ⟨none, false⟩)
  | .ok _ =>
    match env.listenResult with
    | .error e => (.failure ("failed to listen: " ++ e), ⟨none, false⟩)
    | .ok lisAddrPort =>
      match env.hostnameResult with
      | .error e => (.failure ("failed to get hostname: " ++ e), ⟨none, false⟩)
      | .ok hostname =>
        let origins := allowedOrigins lisAddrPort hostname
        let tr : ServeTrace := ⟨some origins, true⟩
        match env.serveResult with
        | some (.other m) => (.failure ("failed to serve: " ++ m), tr)
        | _ => (.success, tr)

/-- Counterexample to C5 as stated: at a concrete run where `Hostname`
returns an error (all other collaborators healthy), `Serve` does NOT
proceed with address-derived origins — it aborts with a wrapped error
before reaching the serve loop. -/
theorem hostnameError_aborts :
    (Serve ⟨.ok (), .ok ⟨⟨"100.64.0.1", false⟩, 80⟩,
        .error "lookup failed", some .errServerClosed⟩).1 =
      .failure ("failed to get hostname: " ++ "lookup failed") ∧
    (Serve ⟨.ok (), .ok ⟨⟨"100.64.0.1", false⟩, 80⟩,
        .error "lookup failed", some .errServerClosed⟩).2.reachedServe = false ∧
    (Serve ⟨.ok (), .ok ⟨⟨"100.64.0.1", false⟩, 80⟩,
        .error "lookup failed", some .errServerClosed⟩).2.servedOrigins = none :=
  ⟨rfl, rfl, rfl⟩

/-- C5 (amended): if hostname resolution returns an empty string, `Serve`
proceeds to serve using only the two address-derived origins; if hostname
resolution returns an error, `Serve` aborts with a wrapped error and never
reaches the serve loop. -/
theorem hostname_empty_tolerated_error_fatal (env : ServeEnv) (ap : AddrPort)
    (h1 : env.openNetworkResult = .ok ())
    (h2 : env.listenResult = .ok ap) :
    (env.hostnameResult = .ok "" →
      (Serve env).2.servedOrigins =
          some ["http://" ++ ap.addr.string, "http://" ++ ap.string] ∧
        (Serve env).2.reachedServe = true) ∧
    (∀ e, env.hostnameResult = .error e →
      (Serve env).1 = .failure ("failed to get hostname: " ++ e) ∧
        (Serve env).2.reachedServe = false) := by
  constructor
  · intro h3
    rcases hs : env.serveResult with _ | e
    · simp [Serve, h1, h2, h3, hs, allowedOrigins]
    · cases e <;> simp [Serve, h1, h2, h3, hs, allowedOrigins]
  · intro e h3
    simp [Serve, h1, h2, h3]

/-- Witness for the amended C5 at two concrete runs: one with an empty
hostname (serving proceeds on address-derived origins) and one with a
failing hostname lookup (startup aborts). -/
theorem hostname_empty_tolerated_error_fatal_witness :
    ((Serve ⟨.ok (), .ok ⟨⟨"100.64.0.1", false⟩, 80⟩, .ok "",
          some .errServerClosed⟩).2.servedOrigins =
        some ["http://" ++ "100.64.0.1", "http://" ++ "100.64.0.1:80"] ∧
      (Serve ⟨.ok (), .ok ⟨⟨"100.64.0.1", false⟩, 80⟩, .ok "",
          some .errServerClosed⟩).2.reachedServe = true) ∧
    ((Serve ⟨.ok (), .ok ⟨⟨"100.64.0.1", false⟩, 80⟩, .error "lookup timeout",
          some .errServerClosed⟩).1 =
        .failure ("failed to get hostname: " ++ "lookup timeout") ∧
      (Serve ⟨.ok (), .ok ⟨⟨"100.64.0.1", false⟩, 80⟩, .error "lookup timeout",
          some .errServerClosed⟩).2.reachedServe = false) := by
  constructor
  · have h := (hostname_empty_tolerated_error_fatal
      ⟨.ok (), .ok ⟨⟨"100.64.0.1", false⟩, 80⟩, .ok "", some .errServerClosed⟩
      ⟨⟨"100.64.0.1", false⟩, 80⟩ rfl rfl).1 rfl
    simpa [AddrPort.string, NetAddr.string] using h
  · exact (hostname_empty_tolerated_error_fatal
      ⟨.ok (), .ok ⟨⟨"100.64.0.1", false⟩, 80⟩, .error "lookup timeout",
        some .errServerClosed⟩
      ⟨⟨"100.64.0.1", false⟩, 80⟩ rfl rfl).2 "lookup timeout" rfl

/-- C6: once serving has begun, the `http.ErrServerClosed` sentinel from
the serve loop makes `Serve` return success, while any other serve-loop
error is returned wrapped. -/
theorem serve_sentinel_success (env : ServeEnv) (ap : AddrPort)
    (hn : String)
    (h1 : env.openNetworkResult = .ok ())
    (h2 : env.listenResult = .ok ap)
    (h3 : env.hostnameResult = .ok hn) :
    (env.serveResult = some .errServerClosed → (Serve env).1 = .success) ∧
    (∀ m, env.serveResult = some (.other m) →
      (Serve env).1 = .failure ("failed to serve: " ++ m)) := by
  constructor
  · intro hs
    simp [Serve, h1, h2, h3, hs]
  · intro m hs
    simp [Serve, h1, h2, h3, hs]

/-- Witness for C6 at two concrete runs: a shutdown ending in the
server-closed sentinel (success) and a serve loop failing with another
error (wrapped failure). -/
theorem serve_sentinel_success_witness :
    (Serve ⟨.ok (), .ok ⟨⟨"100.64.0.1", false⟩, 80⟩, .ok "gateway",
        some .errServerClosed⟩).1 = .success ∧
    (Serve ⟨.ok (), .ok ⟨⟨"100.64.0.1", false⟩, 80⟩, .ok "gateway",
        some (.other "accept tcp: listener broken")⟩).1 =
      .failure ("failed to serve: " ++ "accept tcp: listener broken") :=
  ⟨(serve_sentinel_success
      ⟨.ok (), .ok ⟨⟨"100.64.0.1", false⟩, 80⟩, .ok "gateway",
        some .errServerClosed⟩
      ⟨⟨"100.64.0.1", false⟩, 80⟩ "gateway" rfl rfl rfl).1 rfl,
    (serve_sentinel_success
      ⟨.ok (), .ok ⟨⟨"100.64.0.1", false⟩, 80⟩, .ok "gateway",
        some (.other "accept tcp: listener broken")⟩
      ⟨⟨"100.64.0.1", false⟩, 80⟩ "gateway" rfl rfl rfl).2
      "accept tcp: listener broken" rfl⟩

/-- The shutdown-relevant state of the gateway: whether the HTTP server
has been closed, and whether the context passed to session handler tasks
(`shell.NewHandler(ctx, ...)`, `serve.go` line 94 — the `ctx` argument of
`Serve` itself) has been cancelled. -/
structure GatewayState where
  serverClosed : Bool
  sessionCtxCancelled : Bool
deriving DecidableEq, Repr

/-- The signal-watcher goroutine of `serve.go` lines 120-130, translated:
on receipt of SIGINT/SIGTERM it calls `srv.Close()` and nothing else — in
particular it does not cancel the context shared with the session
handlers. -/
def onSignal (s : GatewayState) : GatewayState := { s with serverClosed := true }

/-- Counterexample to C9 as stated: starting from a running gateway whose
shared session context is not cancelled, receipt of a signal closes the
server but leaves the session context uncancelled — the cancellation the
claim promises is not delivered. -/
theorem signal_does_not_cancel_ctx :
    onSignal ⟨false, false⟩ = ⟨true, false⟩ ∧
    (onSignal ⟨false, false⟩).sessionCtxCancelled = false :=
  ⟨rfl, rfl⟩

/-- C9 (amended): receipt of an interrupt/terminate signal closes the HTTP
server (so no new connections are accepted) but does not cancel the shared
context passed to session tasks; that context is the caller-provided `ctx`
of `Serve` and is cancelled only by the caller. -/
theorem signal_closes_server_only (s : GatewayState) :
    (onSignal s).serverClosed = true ∧
    (onSignal s).sessionCtxCancelled = s.sessionCtxCancelled :=
  ⟨rfl, rfl⟩

/-- Response headers at the granularity this development needs: an
association list of header name and value, mirroring Go's `http.Header`. -/
abbrev Headers := List (String × String)

/-- Go's `Header.Set`: store the value for the key, replacing any existing
entry for that key. -/
def setHeader (hs : Headers) (k v : String) : Headers :=
  (k, v) :: hs.filter (fun p => p.1 != k)

/-- Go's `Header.Get`: the first stored value for the key, if any. -/
def getHeader (hs : Headers) (k : String) : Option String :=
  (hs.find? (fun p => p.1 == k)).map (fun p => p.2)

/-- Boolean equality on strings is symmetric (helper). -/
theorem strBeqComm (a b : String) : (a == b) = (b == a) := by
  by_cases h : a = b
  · rw [h]
  · have h1 : (a == b) = false := by
      cases hv : a == b
      · rfl
      · exact absurd (eq_of_beq hv) h
    have h2 : (b == a) = false := by
      cases hv : b == a
      · rfl
      · exact absurd (eq_of_beq hv).symm h
    rw [h1, h2]

/-- Looking up a key untouched by a filter that only removes entries with a
different key is unchanged (helper). -/
theorem find_filter_key_ne (hs : Headers) (k k2 : String)
    (h : (k2 == k) = false) :
    (hs.filter (fun p => p.1 != k)).find? (fun p => p.1 == k2) =
      hs.find? (fun p => p.1 == k2) := by
  induction hs with
  | nil => rfl
  | cons p t ih =>
    by_cases hp : p.1 = k
    · have hk2 : (p.1 == k2) = false := by
        rw [hp, strBeqComm]
        exact h
      have hpk : (p.1 != k) = false := by
        simp [hp]
      simp [List.filter_cons, hpk, List.find?_cons, hk2, ih]
    · have hpk : (p.1 != k) = true := by
        simp [hp]
      by_cases hq : (p.1 == k2) = true
      · simp [List.filter_cons, hpk, List.find?_cons, hq]
      · have hq2 : (p.1 == k2) = false := by
          cases hv : p.1 == k2
          · rfl
          · exact absurd hv hq
        simp [List.filter_cons, hpk, List.find?_cons, hq2, ih]

/-- Reading back the key just set yields the value just set (helper). -/
theorem getHeader_setHeader_self (hs : Headers) (k v : String) :
    getHeader (setHeader hs k v) k = some v := by
  unfold getHeader setHeader
  simp [List.find?_cons]

/-- Setting one key leaves every other key unchanged (helper). -/
theorem getHeader_setHeader_ne (hs : Headers) (k k2 v : String)
    (h : (k2 == k) = false) :
    getHeader (setHeader hs k v) k2 = getHeader hs k2 := by
  unfold getHeader setHeader
  have hk : (k == k2) = false := by
    rw [strBeqComm]
    exact h
  rw [List.find?_cons]
  simp only [hk]
  rw [find_filter_key_ne hs k k2 h]

/-- Outcome of running a request handler: a completed response with a
status code, or a panic escaping the handler. -/
inductive HOutcome where
  | done (status : Nat)
  | panicked
deriving DecidableEq, Repr

/-- One `/shell/ws`-capable HTTP request: its path, the connection
environment (whose `origin` field is the request's Origin header), and a
fault-injection flag for the opaque static asset handler. -/
structure ReqCtx where
  path : String
  conn : ConnEnv
  assetPanics : Bool
deriving DecidableEq, Repr

/-- A request handler: reads the request, transforms the response headers,
and either completes or panics. -/
abbrev Handler := ReqCtx → Headers → Headers × HOutcome

/-- A middleware: a handler decorator. -/
abbrev MwLayer := Handler → Handler

/-- Modelled from the spec: `middleware.Recover(logger)` (the repository's
`internal/middleware` package is not under the visible source tree) —
catches any panic escaping the inner handler, logs it, and converts it
into a 500-equivalent response instead of crashing the server process. -/
def recoverLayer : MwLayer := fun h req hdrs =>
  match h req hdrs with
  | (hs, .panicked) => (hs, .done 500)
  | r => r

/-- Modelled from the spec: `middleware.FrameOptions(FrameOptionDeny)` —
sets the `X-Frame-Options: DENY` response header before invoking the
inner handler. -/
def frameOptionsDeny : MwLayer := fun h req hdrs =>
  h req (setHeader hdrs "X-Frame-Options" "DENY")

/-- Modelled from the spec: the restrictive content-security-policy value
set by `middleware.ContentSecurityPolicy`.  The concrete directive string
lives in the missing middleware source; only its presence is relevant
here. -/
def cspHeaderValue : String := "restrictive-content-security-policy"

/-- Modelled from the spec: `middleware.ContentSecurityPolicy` — sets the
content-security-policy response header before invoking the inner
handler. -/
def contentSecurityPolicyLayer : MwLayer := fun h req hdrs =>
  h req (setHeader hdrs "Content-Security-Policy" cspHeaderValue)

/-- Modelled from the spec: `corsHandler.Handler` — validates the Origin
header of the request against the origin policy: a present, disallowed
origin is rejected with an error response before the inner handler runs;
otherwise the request proceeds, with the allow-origin header echoed for
allowed cross-origin requests. -/
def corsLayer (c : CorsHandler) : MwLayer := fun h req hdrs =>
  match req.conn.origin with
  | none => h req hdrs
  | some o =>
      if c.allowed.contains o then
        h req (setHeader hdrs "Access-Control-Allow-Origin" o)
      else
        (hdrs, .done 403)

/-- The static asset handler `web.Handler()` (opaque external
collaborator): serves content without touching the security headers; the
`assetPanics` flag injects a fault for the panic-containment claim. -/
def webHandler : Handler := fun req hdrs =>
  if req.assetPanics then (hdrs, .panicked) else (hdrs, .done 200)

/-- The `/shell/ws` endpoint as an HTTP handler: runs the connection
handler trace of `wsHandler`; a panic escaping it propagates into the
middleware chain. -/
def wsHttpHandler (c : CorsHandler) : Handler := fun req hdrs =>
  if (wsHandler c req.conn).2 then (hdrs, .panicked) else (hdrs, .done 200)

/-- The router of `serve.go` lines 79-81 and 83: `/shell/ws` is served by
the upgrade handler; `/` and `/shell/` (and everything else under the
catch-all) by the static asset handler. -/
def muxHandler (c : CorsHandler) : Handler := fun req hdrs =>
  if req.path == "/shell/ws" then wsHttpHandler c req hdrs
  else webHandler req hdrs

/-- Modelled from the spec: `middleware.Chain` — applies the decorators in
declaration order, the first listed becoming the outermost wrapper. -/
def chainMw (ms : List MwLayer) (h : Handler) : Handler :=
  ms.foldr (fun m acc => m acc) h

/-- The middleware list of `serve.go` lines 109-114, in declaration order:
Recover, FrameOptions, ContentSecurityPolicy, CORS. -/
def middlewareList (c : CorsHandler) : List MwLayer :=
  [recoverLayer, frameOptionsDeny, contentSecurityPolicyLayer, corsLayer c]

/-- The fully assembled server handler of `serve.go` lines 116-118. -/
def serverHandler (c : CorsHandler) : Handler :=
  chainMw (middlewareList c) (muxHandler c)

/-- The recover layer never lets a panic escape (helper). -/
theorem recoverLayer_no_panic (h : Handler) (req : ReqCtx) (hdrs : Headers) :
    (recoverLayer h req hdrs).2 ≠ HOutcome.panicked := by
  unfold recoverLayer
  rcases hh : h req hdrs with ⟨hs, o⟩
  cases o <;> simp

/-- The recover layer passes the inner handler's headers through (helper). -/
theorem recoverLayer_headers (h : Handler) (req : ReqCtx) (hdrs : Headers) :
    (recoverLayer h req hdrs).1 = (h req hdrs).1 := by
  unfold recoverLayer
  rcases hh : h req hdrs with ⟨hs, o⟩
  cases o <;> simp

/-- The router returns its input headers unchanged (helper). -/
theorem muxHandler_headers (c : CorsHandler) (req : ReqCtx) (hdrs : Headers) :
    (muxHandler c req hdrs).1 = hdrs := by
  unfold muxHandler wsHttpHandler webHandler
  by_cases hp : (req.path == "/shell/ws") = true <;>
    by_cases hw : (wsHandler c req.conn).2 = true <;>
      by_cases ha : req.assetPanics = true <;>
        simp [hp, hw, ha]

/-- The CORS layer over the router preserves every header other than the
allow-origin header it may add (helper). -/
theorem corsLayer_mux_headers (c : CorsHandler) (req : ReqCtx)
    (hdrs : Headers) (k : String)
    (hk : (k == "Access-Control-Allow-Origin") = false) :
    getHeader ((corsLayer c (muxHandler c)) req hdrs).1 k = getHeader hdrs k := by
  unfold corsLayer
  rcases ho : req.conn.origin with _ | o
  · simp [muxHandler_headers]
  · by_cases hc : c.allowed.contains o = true
    · simp only [hc, if_true]
      rw [muxHandler_headers]
      exact getHeader_setHeader_ne _ _ _ _ hk
    · have hm : o ∉ c.allowed := by
        simpa using hc
      simp [hm]

/-- C7: with the middleware list [Recover, FrameOptions,
ContentSecurityPolicy, CORS] chained in declaration order (first listed
outermost), every response carries `X-Frame-Options: DENY` and the
content-security-policy header regardless of which inner handler ran, and
no panic raised in the router or an inner handler escapes past Recover. -/
theorem chain_headers_and_no_panic (c : CorsHandler) (req : ReqCtx)
    (hdrs : Headers) :
    (serverHandler c req hdrs).2 ≠ HOutcome.panicked ∧
    getHeader (serverHandler c req hdrs).1 "X-Frame-Options" = some "DENY" ∧
    getHeader (serverHandler c req hdrs).1 "Content-Security-Policy" =
      some cspHeaderValue := by
  refine ⟨?_, ?_, ?_⟩
  · exact recoverLayer_no_panic
      (frameOptionsDeny (contentSecurityPolicyLayer (corsLayer c (muxHandler c))))
      req hdrs
  · show getHeader ((recoverLayer (frameOptionsDeny (contentSecurityPolicyLayer
      (corsLayer c (muxHandler c))))) req hdrs).1 "X-Frame-Options" = some "DENY"
    rw [recoverLayer_headers]
    show getHeader ((corsLayer c (muxHandler c)) req
      (setHeader (setHeader hdrs "X-Frame-Options" "DENY")
        "Content-Security-Policy" cspHeaderValue)).1 "X-Frame-Options" = some "DENY"
    rw [corsLayer_mux_headers _ _ _ _ (by decide)]
    rw [getHeader_setHeader_ne _ _ _ _ (by decide)]
    exact getHeader_setHeader_self _ _ _
  · show getHeader ((recoverLayer (frameOptionsDeny (contentSecurityPolicyLayer
      (corsLayer c (muxHandler c))))) req hdrs).1 "Content-Security-Policy" =
        some cspHeaderValue
    rw [recoverLayer_headers]
    show getHeader ((corsLayer c (muxHandler c)) req
      (setHeader (setHeader hdrs "X-Frame-Options" "DENY")
        "Content-Security-Policy" cspHeaderValue)).1 "Content-Security-Policy" =
          some cspHeaderValue
    rw [corsLayer_mux_headers _ _ _ _ (by decide)]
    exact getHeader_setHeader_self _ _ _

end Nsh
